import Mathlib

/-!
# Verification of the ad-exchange fan-out service

A shallow embedding of the exchange service (`flavors/adtech/exchange/exchange.go`
and the `openrtb` package) in Lean 4, together with theorems settling the
specification claims about the `/ad` request orchestrator, the DSP dispatch
pool, the configuration cache loaders and outbound URL construction.

Pure data transformations are translated directly; interactions with the
outside world (gzip reader creation, JSON decoding, the HTTP round-trip,
worker availability, arrival order of responses) are supplied as explicit
inputs of an environment record, so that one environment value corresponds
to one concrete execution of the handler.
-/

set_option autoImplicit false

namespace Exchange

/-! ## Data model (exchange.go lines 34-61, openrtb package)

Only the fields the verified code paths read are carried; omitted fields of
the OpenRTB records (`imp`, `device`, ...) are never dereferenced by the
exchange.  Go `int` is modelled as `Int`. -/

/-- `Publisher` record (exchange.go lines 40-43). -/
structure Publisher where
  id : Int
  name : String
deriving DecidableEq, Repr

/-- `App` record (exchange.go lines 34-38).  The `Publisher` field is a Go
pointer, hence `Option`: a JSON source without a `publisher` key yields `nil`. -/
structure App where
  id : Int
  name : String
  publisher : Option Publisher
deriving DecidableEq, Repr

/-- `DSP` record (exchange.go lines 51-56). -/
structure DSP where
  id : Int
  name : String
  endpoint : String
  latency : String
deriving DecidableEq, Repr

/-- `openrtb.BidRequest`: the handler only ever dereferences `App.ID`, an
optional pointer field (`App *App` with json tag `app,omitempty`) holding a
record whose `id` is a string. -/
structure BidReqApp where
  id : String
deriving DecidableEq, Repr

/-- Top-level inbound bid request; `app` is `Option` because the Go field is
a pointer that decodes to `nil` when the `app` key is absent. -/
structure BidRequest where
  id : String
  app : Option BidReqApp
deriving DecidableEq, Repr

/-- `openrtb.Bid` (openrtb package): the fields relevant to response
equality. -/
structure Bid where
  id : String
  impid : String
  price : Int
deriving DecidableEq, Repr

/-- `openrtb.SeatBid`. -/
structure SeatBid where
  bid : List Bid
  seat : String
deriving DecidableEq, Repr

/-- `openrtb.BidResponse`.  The Go zero value (`var bidResponse BidResponse`)
has every field empty; `default` below coincides with it. -/
structure BidResponse where
  id : String := ""
  seatbid : List SeatBid := []
  bidid : String := ""
  cur : String := ""
deriving DecidableEq, Repr

instance : Inhabited BidResponse := ⟨{}⟩

/-- The empty bid response record: the Go zero value written when no
error-free response was collected (exchange.go line 633). -/
def emptyBidResponse : BidResponse := {}

/-! ## strconv.Atoi (used at exchange.go line 538)

Go accepts an optional leading `+` or `-` followed by one or more ASCII
digits.  (The `int64` range check of the real `strconv.Atoi` is not
modelled; the ids in play are small.) -/

/-- Digit test for `goAtoi`. -/
def isGoDigit (c : Char) : Bool := decide ('0' ≤ c) && decide (c ≤ '9')

/-- Digits-to-integer accumulator. -/
def digitsToInt (l : List Char) : Int :=
  l.foldl (fun acc c => acc * 10 + (Int.ofNat (c.toNat - '0'.toNat))) 0

/-- Model of `strconv.Atoi`: `.error` mirrors the non-nil error return. -/
def goAtoi (s : String) : Except String Int :=
  let (neg, digits) :=
    match s.toList with
    | '-' :: rest => (true, rest)
    | '+' :: rest => (false, rest)
    | l => (false, l)
  if digits.isEmpty then
    .error ("strconv.Atoi: parsing " ++ s ++ ": invalid syntax")
  else if digits.all isGoDigit then
    .ok (if neg then - digitsToInt digits else digitsToInt digits)
  else
    .error ("strconv.Atoi: parsing " ++ s ++ ": invalid syntax")

/-! ## net/url model (used at exchange.go lines 582-599)

`url.Parse` rejects any URL containing an ASCII control character
(`stringContainsCTLByte` in net/url); that is the failure mode we model.
Other, rarer parse failures of the Go standard library are not modelled, so
the model's `goURLParse` succeeds on some strings the real parser rejects;
every failure of the model is a failure of the real parser.  Fragments and
percent-escaping are not modelled (no value in scope needs escaping). -/

/-- Whether a string contains an ASCII control byte (< 0x20 or 0x7f), the
condition under which `url.Parse` fails with
"net/url: invalid control character in URL". -/
def containsCTL (s : String) : Bool :=
  s.toList.any (fun c => decide (c.toNat < 0x20) || decide (c.toNat = 0x7f))

/-- A parsed URL, split into everything before the query and the raw query
string. -/
structure GoURL where
  pre : String
  rawQuery : String
deriving DecidableEq, Repr

/-- Cut a character list at the first occurrence of a separator, returning
the part before and (when the separator occurs) the part after it. -/
def cutAtFirst (sep : Char) : List Char → List Char × Option (List Char)
  | [] => ([], none)
  | c :: cs =>
      if c = sep then ([], some cs)
      else (c :: (cutAtFirst sep cs).1, (cutAtFirst sep cs).2)

/-- Split a string at the first occurrence of a character, returning the
part before and the part after (without the separator). -/
def splitAtFirst (sep : Char) (s : String) : String × Option String :=
  match cutAtFirst sep s.toList with
  | (a, none) => (⟨a⟩, none)
  | (a, some b) => (⟨a⟩, some ⟨b⟩)

/-- Split a character list on every occurrence of a separator. -/
def splitOnChar (sep : Char) : List Char → List (List Char)
  | [] => [[]]
  | c :: cs =>
      if c = sep then [] :: splitOnChar sep cs
      else
        match splitOnChar sep cs with
        | [] => [[c]]
        | x :: xs => (c :: x) :: xs

/-- Model of `url.Parse`. -/
def goURLParse (s : String) : Except String GoURL :=
  if containsCTL s then
    .error "net/url: invalid control character in URL"
  else
    match splitAtFirst '?' s with
    | (pre, none) => .ok { pre := pre, rawQuery := "" }
    | (pre, some q) => .ok { pre := pre, rawQuery := q }

/-- One component of a query string: `k=v` cut at the first `=`
(`strings.Cut` inside `url.ParseQuery`); a component with no `=` maps the
whole component to the empty value; empty components are skipped. -/
def parseQueryComp (comp : List Char) : Option (String × String) :=
  if comp.isEmpty then none
  else
    match cutAtFirst '=' comp with
    | (k, none) => some (⟨k⟩, "")
    | (k, some v) => some (⟨k⟩, ⟨v⟩)

/-- Model of `url.Values` obtained from `u.Query()`: the key-value pairs of
the raw query, in order.  (Percent-unescaping is not modelled; no configured
value requires it.) -/
def parseQuery (rawQuery : String) : List (String × String) :=
  if rawQuery = "" then []
  else (splitOnChar '&' rawQuery.toList).filterMap parseQueryComp

/-- Model of `q.Set(key, value)`: drop every existing pair for `key` and
record the single new pair (Go `Values.Set` replaces the whole slice). -/
def querySet (q : List (String × String)) (key value : String) :
    List (String × String) :=
  q.filter (fun p => p.1 ≠ key) ++ [(key, value)]

/-- The outbound bid URL built by the fan-out loop: either the DSP endpoint
verbatim (empty latency directive) or the re-encoded URL with the updated
query (non-empty directive).  The rebuilt form keeps the query structured,
matching what `u.String()` followed by re-parsing yields. -/
inductive BidURL where
  | verbatim (endpoint : String)
  | rebuilt (pre : String) (query : List (String × String))
deriving DecidableEq, Repr

/-- Model of exchange.go lines 582-599: the `bidURL` computation followed by
`http.NewRequestWithContext`, which re-parses the URL and therefore fails on
a verbatim endpoint containing a control byte.  A rebuilt URL always
re-parses (its components came from a successful parse, and `Encode`
escapes the query). -/
def buildBidURL (dsp : DSP) : Except String BidURL :=
  if dsp.latency = "" then
    if containsCTL dsp.endpoint then
      .error "net/url: invalid control character in URL"
    else
      .ok (.verbatim dsp.endpoint)
  else
    match goURLParse dsp.endpoint with
    | .error e => .error e
    | .ok u => .ok (.rebuilt u.pre (querySet (parseQuery u.rawQuery) "latency" dsp.latency))

/-- The query pairs of an outbound URL (for the verbatim case, the query
part of the endpoint string). -/
def bidURLQuery : BidURL → List (String × String)
  | .verbatim s =>
      match splitAtFirst '?' s with
      | (_, none) => []
      | (_, some q) => parseQuery q
  | .rebuilt _ q => q

/-- Whether a query holds a given key. -/
def queryHasKey (q : List (String × String)) (key : String) : Bool :=
  q.any (fun p => p.1 = key)

/-! ## Cache loaders (exchange.go lines 146-200)

`State` holds two atomic snapshot pointers; a loader reads its JSON source
and performs one `Store` on success.  The file-open and JSON-decode results
are inputs: `.error` at the outer layer is a failed `os.Open`, `.error` at
the inner layer a failed `json.Decode`.  A pointer that was never stored is
`none` (the `main` function guarantees a successful initial load before the
server accepts traffic). -/

/-- The apps snapshot: the Go `map[int]*App` as an association list with
unique keys (insertion with last-write-wins, as below). -/
structure Apps where
  apps : List (Int × App)
deriving DecidableEq, Repr

/-- `State` (exchange.go lines 73-76). -/
structure State where
  apps : Option Apps
  dsps : Option (List DSP)
deriving DecidableEq, Repr

/-- The keys of an association-list map. -/
def mapKeys (m : List (Int × App)) : List Int := m.map Prod.fst

/-- One step of the map-building loop of `CacheLoadApps`
(exchange.go lines 161-165): the Go assignment `appMap[app.ID] = &app`
replaces an existing entry for the key or appends a new one. -/
def mapInsert (m : List (Int × App)) (a : App) : List (Int × App) :=
  if a.id ∈ mapKeys m then
    m.map (fun p => if p.1 = a.id then (a.id, a) else p)
  else
    m ++ [(a.id, a)]

/-- The single pass over the decoded JSON array building the apps map. -/
def buildAppMap (records : List App) : List (Int × App) :=
  records.foldl mapInsert []

/-- Map lookup `apps.Apps[appid]` (`nil` when absent). -/
def appsLookup (m : List (Int × App)) (k : Int) : Option App :=
  (m.find? (fun p => p.1 = k)).map (fun p => p.2)

/-- `CacheLoadApps` body (exchange.go lines 147-173): returns the new state
and the error returned to the caller.  Both error paths return before the
`state.Apps.Store` call, so the state is passed through unchanged. -/
def cacheLoadApps (source : Except String (Except String (List App)))
    (state : State) : State × Option String :=
  match source with
  | .error e => (state, some e)
  | .ok (.error e) => (state, some e)
  | .ok (.ok records) =>
      ({ state with apps := some { apps := buildAppMap records } }, none)

/-- `CacheLoadDSPs` body (exchange.go lines 176-200): same shape; the DSP
roster is stored as the decoded slice, no map is built. -/
def cacheLoadDSPs (source : Except String (Except String (List DSP)))
    (state : State) : State × Option String :=
  match source with
  | .error e => (state, some e)
  | .ok (.error e) => (state, some e)
  | .ok (.ok records) =>
      ({ state with dsps := some records }, none)

/-! ## DSP dispatch pool (exchange.go lines 202-329)

`Out` is the worker reply record.  `Enqueue` offers an item to the
unbuffered input channel with `select`/`default`: whether a worker is at
that instant blocked on the channel receive is an input of the model
(`workerReceiving`).  On `default` (no receiver) it increments the dropped
counter and delivers a synthetic error; otherwise the receiving worker runs
`Execute`, whose transport round-trip result and body-decode function are
inputs.  Either way exactly one `Out` is sent to the item's reply channel. -/

/-- `Out` (exchange.go lines 216-221); `err : Option String` models the Go
`error` field (`none` = `nil`). -/
structure Out where
  id : Nat
  dspid : Int
  bidResponse : BidResponse := {}
  err : Option String := none
deriving DecidableEq, Repr

/-- The synthetic reply delivered by `Enqueue` on the drop path
(exchange.go lines 285-289). -/
def queueFullOut (id : Nat) (dspid : Int) : Out :=
  { id := id, dspid := dspid, err := some "dspio: queue is full" }

/-- `Execute` (exchange.go lines 293-329): one round-trip, then one body
decode, then exactly one send of the resulting `Out`.  `roundTrip` is the
`transport.RoundTrip` outcome (error, or the response body); `decodeBody`
is `json.Decode` into a `BidResponse`. -/
def dspioExecute (id : Nat) (dspid : Int) (roundTrip : Except String String)
    (decodeBody : String → Except String BidResponse) : Out :=
  match roundTrip with
  | .error e => { id := id, dspid := dspid, err := some e }
  | .ok body =>
      match decodeBody body with
      | .error e => { id := id, dspid := dspid, err := some e }
      | .ok bidResponse =>
          { id := id, dspid := dspid, bidResponse := bidResponse, err := none }

/-- Counter increments performed by `Enqueue` (exchange.go lines 271-283):
`(total, dropped)` for the item's DSP label. -/
def dspioEnqueueCounters (workerReceiving : Bool) : Nat × Nat :=
  (1, if workerReceiving then 0 else 1)

/-- The replies delivered on the item's reply channel as a consequence of
one `Enqueue` (exchange.go lines 268-290 and, when a worker picked the item
up, lines 293-329): a singleton list in either case. -/
def dspioDeliveries (workerReceiving : Bool) (id : Nat) (dspid : Int)
    (roundTrip : Except String String)
    (decodeBody : String → Except String BidResponse) : List Out :=
  if workerReceiving then
    [dspioExecute id dspid roundTrip decodeBody]
  else
    [queueFullOut id dspid]

/-! ## The `/ad` request orchestrator (exchange.go lines 521-645)

The handler is modelled as a function of one environment value describing a
single execution: the gzip-reader and JSON-decode outcomes for the inbound
body, the snapshots the two atomic loads observe, the per-item pool and
transport behaviour, and the sequence of events observed by the collect
loop's `select` (a reply became available, or the deadline context fired).
Compressing the outbound payload into a fresh `bytes.Buffer`
(lines 571-580) cannot fail in Go (writes to a `bytes.Buffer` do not
error), and `json.Marshal` of a request that itself came from `json.Decode`
succeeds, so those error branches are dead and the model treats both steps
as total.  Metric increments other than the dispatch counters are not
modelled. -/

/-- Pool and transport behaviour for one fan-out item, indexed by the item's
sequence id. -/
structure IoBehavior where
  workerReceiving : Bool
  roundTrip : Except String String
deriving Repr

/-- One observable event of the collect loop's `select`
(exchange.go lines 620-630): a reply was received from the channel, or
`ctx.Done()` fired. -/
inductive CollectEvent where
  | recv (o : Out)
  | deadline
deriving DecidableEq, Repr

/-- Environment of one `/ad` handler execution. -/
structure AdEnv where
  /-- Outcome of `gzip.NewReader(r.Body)` (line 524). -/
  gzipReader : Except String Unit
  /-- Outcome of `json.NewDecoder(gz).Decode(&adRequest)` (line 532). -/
  decodeBody : Except String BidRequest
  /-- The apps snapshot observed by `cache.state.Apps.Load()` (line 537). -/
  apps : Apps
  /-- The roster observed by `cache.state.DSPs.Load()` (line 553). -/
  dsps : List DSP
  /-- Pool/transport behaviour per fan-out sequence id. -/
  io : Nat → IoBehavior
  /-- `json.Decode` of a DSP response body into a `BidResponse`. -/
  jsonDecodeBid : String → Except String BidResponse
  /-- Event sequence seen by the collect loop. -/
  collectEvents : List CollectEvent

/-- Response body of the handler: an `http.Error` text (which appends a
newline) or the JSON-encoded bid response. -/
inductive Body where
  | errorText (msg : String)
  | bidJSON (b : BidResponse)
deriving DecidableEq, Repr

/-- Result of one handler execution.  `panic` is a Go runtime panic (nil
pointer dereference): no status or body is produced. -/
inductive AdResult where
  | panic
  | response (status : Nat) (body : Body)
deriving DecidableEq, Repr

/-- HTTP status of a handler result (`none` for a panic, which produces no
response). -/
def statusOf : AdResult → Option Nat
  | .panic => none
  | .response s _ => some s

/-- The fan-out loop (exchange.go lines 566-614) restricted to its
per-item effects: walk the roster in order; for each entry build the
outbound request; on a construction failure stop (the handler returns 500
there); otherwise the item is enqueued.  Returns the enqueued
`(sequence id, DSP)` pairs and the first construction error, if any. -/
def fanOutItems : List (Nat × DSP) → List (Nat × DSP) × Option String
  | [] => ([], none)
  | (i, d) :: rest =>
      match buildBidURL d with
      | .error e => ([], some e)
      | .ok _ => ((i, d) :: (fanOutItems rest).1, (fanOutItems rest).2)

/-- All replies delivered to the reply channel as a consequence of the
enqueues of one fan-out (one per enqueued item, by `dspioDeliveries`). -/
def fanOutDeliveries (env : AdEnv) (items : List (Nat × DSP)) : List Out :=
  (items.map (fun p =>
    dspioDeliveries (env.io p.1).workerReceiving p.1 p.2.id
      (env.io p.1).roundTrip env.jsonDecodeBid)).flatten

/-- The collect loop (exchange.go lines 616-631): up to `n` iterations,
each consuming one event; an error-free reply is appended to
`bidResponses`, an erroneous one only logged, and `ctx.Done()` breaks the
loop.  Returns `bidResponses`.  (An exhausted event list models a `select`
that never fires again; real executions always eventually see `deadline`.) -/
def collectLoop : Nat → List CollectEvent → List Out
  | 0, _ => []
  | _ + 1, [] => []
  | n + 1, .recv o :: evs =>
      if o.err = none then o :: collectLoop n evs else collectLoop n evs
  | _ + 1, .deadline :: _ => []

/-- All replies the collect loop received (with or without error) before it
ended: the events it consumed that were receptions. -/
def receivedOuts : Nat → List CollectEvent → List Out
  | 0, _ => []
  | _ + 1, [] => []
  | n + 1, .recv o :: evs => o :: receivedOuts n evs
  | _ + 1, .deadline :: _ => []

/-- Observable outcome of one `/ad` handler execution: the HTTP result plus
the handler's interactions with the reply channel and the pool. -/
structure HandlerOut where
  result : AdResult
  /-- Capacity the reply channel was created with (line 554), when the
  execution reached that point. -/
  chanCap : Option Nat := none
  /-- Items offered to the pool, in roster order. -/
  enqueued : List (Nat × DSP) := []
  /-- Replies delivered (or to be delivered) on the reply channel: the
  sends attempted against it. -/
  deliveries : List Out := []
  /-- Whether the orchestrator ever closed the reply channel.  The handler
  contains no `close(responses)` (see the comment at lines 557-558), so no
  execution path sets this. -/
  chanClosed : Bool := false
  /-- Replies the collect loop consumed. -/
  received : List Out := []
deriving Repr

/-- The `/ad` handler (exchange.go lines 521-645), one execution under
environment `env`.  Stages in source order: gzip reader (524), JSON decode
(532), apps load and `adRequest.App.ID` dereference (537-538, a nil-pointer
panic when the request has no `app` object), `strconv.Atoi` (538), map
lookup (543-547), the `app.Publisher.ID` dereference of the metric at
lines 549-551 (a panic when the configured app has no publisher), roster
load and reply-channel creation (553-554), fan-out (566-614, aborting with
500 on an outbound-request construction failure), collect (616-631) and
winner selection (633-644). -/
def adHandler (env : AdEnv) : HandlerOut :=
  match env.gzipReader with
  | .error e => { result := .response 500 (.errorText (e ++ "\n")) }
  | .ok _ =>
  match env.decodeBody with
  | .error e => { result := .response 500 (.errorText (e ++ "\n")) }
  | .ok adRequest =>
  match adRequest.app with
  | none => { result := .panic }
  | some reqApp =>
  match goAtoi reqApp.id with
  | .error e => { result := .response 500 (.errorText (e ++ "\n")) }
  | .ok appid =>
  match appsLookup env.apps.apps appid with
  | none => { result := .response 404 (.errorText "app not found\n") }
  | some app =>
  match app.publisher with
  | none => { result := .panic }
  | some _ =>
    let dsps := env.dsps
    let n := dsps.length
    let items := (fanOutItems dsps.enum).1
    let delivs := fanOutDeliveries env items
    match (fanOutItems dsps.enum).2 with
    | some e =>
        { result := .response 500 (.errorText (e ++ "\n")), chanCap := some n,
          enqueued := items, deliveries := delivs }
    | none =>
        let bidResponses := collectLoop n env.collectEvents
        let bid := ((bidResponses.head?).map (fun o => o.bidResponse)).getD {}
        { result := .response 200 (.bidJSON bid), chanCap := some n,
          enqueued := items, deliveries := delivs,
          received := receivedOuts n env.collectEvents }

/-- Whether one character list starts with another. -/
def leadsWith : List Char → List Char → Bool
  | [], _ => true
  | _ :: _, [] => false
  | a :: as, b :: bs => a = b && leadsWith as bs

/-- Whether a character list occurs inside another. -/
def hasSub : List Char → List Char → Bool
  | [], needle => needle.isEmpty
  | h :: t, needle => leadsWith needle (h :: t) || hasSub t needle

/-- Substring test used to state "body contains". -/
def stringContains (s sub : String) : Bool := hasSub s.toList sub.toList

/-- State of a buffered Go channel after `k` sends with no concurrent
receive: `some` of the number buffered when no send blocked, `none` when
some send found the buffer full (and would block). -/
def trySends (cap : Nat) : Nat → Option Nat
  | 0 => some 0
  | k + 1 =>
      match trySends cap k with
      | none => none
      | some b => if b < cap then some (b + 1) else none

/-! ## Concrete instances

Concrete environments used to exhibit executions of the model: a happy-path
request (the spec's end-to-end scenario 1), variations with failing stages,
and configuration values exercising the edge cases. -/

/-- The configured app of scenario 1. -/
def appOK : App :=
  { id := 1250, name := "app-1250", publisher := some { id := 1, name := "publisher-1" } }

/-- A decodable inbound bid request naming that app. -/
def reqOK : BidRequest := { id := "1", app := some { id := "1250" } }

/-- An apps snapshot holding `appOK`. -/
def appsOK : Apps := { apps := [(1250, appOK)] }

/-- A DSP with a well-formed endpoint and no latency directive. -/
def goodDSP : DSP := { id := 1001, name := "dsp1", endpoint := "https://d1/bid", latency := "" }

/-- A DSP whose configured endpoint contains an ASCII control byte, so that
`http.NewRequestWithContext` fails on it. -/
def badDSP : DSP := { id := 1002, name := "dsp2", endpoint := "https://d2/bid\n", latency := "" }

/-- Pool behaviour: a worker is always receiving and the round-trip returns
a body. -/
def ioAccept : Nat → IoBehavior :=
  fun _ => { workerReceiving := true, roundTrip := .ok "body" }

/-- Body decoder returning the scenario-1 bid response. -/
def decodeBid123 : String → Except String BidResponse := fun _ => .ok { id := "123" }

/-- The reply of the single DSP of the happy path. -/
def outOK : Out := { id := 0, dspid := 1001, bidResponse := { id := "123" }, err := none }

/-- Happy-path environment: decode and lookup succeed, one healthy DSP,
whose error-free reply arrives before the deadline. -/
def envHappy : AdEnv :=
  { gzipReader := .ok (), decodeBody := .ok reqOK, apps := appsOK,
    dsps := [goodDSP], io := ioAccept, jsonDecodeBid := decodeBid123,
    collectEvents := [.recv outOK] }

/-- Same request against a roster whose second DSP has a malformed
endpoint: outbound request construction fails mid-fan-out. -/
def envBuildFail : AdEnv := { envHappy with dsps := [goodDSP, badDSP] }

/-- A decodable request with no `app` object. -/
def envNoApp : AdEnv := { envHappy with decodeBody := .ok { id := "1", app := none } }

/-- The gzip reader fails on the body. -/
def envGzipFail : AdEnv := { envHappy with gzipReader := .error "gzip: invalid header" }

/-- The JSON decode fails on the decompressed body. -/
def envJSONFail : AdEnv :=
  { envHappy with decodeBody := .error "invalid character" }

/-- `request.app.id` is not an integer. -/
def envBadKey : AdEnv :=
  { envHappy with decodeBody := .ok { id := "1", app := some { id := "abc" } } }

/-- The parsed app id is absent from the snapshot. -/
def envMiss : AdEnv := { envHappy with apps := { apps := [] } }

/-- A state with nothing published yet. -/
def stEmpty : State := { apps := none, dsps := none }

/-- A source array holding two records with the same app id. -/
def dupApps : List App :=
  [{ id := 1, name := "a", publisher := none }, { id := 1, name := "b", publisher := none }]

/-- A DSP with a latency directive. -/
def dspWithLatency : DSP :=
  { id := 7, name := "d7", endpoint := "https://d1/bid", latency := "150ms" }

/-- A DSP with an empty latency directive whose configured endpoint itself
carries a `latency` query parameter. -/
def dspLatencyInEndpoint : DSP :=
  { id := 8, name := "d8", endpoint := "https://d1/bid?latency=9s", latency := "" }

/-! ## Helper lemmas -/

theorem trySends_of_le (cap : Nat) : ∀ k : Nat, k ≤ cap → trySends cap k = some k := by
  intro k
  induction k with
  | zero => intro _; rfl
  | succ k ih =>
      intro h
      have hk : k ≤ cap := Nat.le_of_succ_le h
      simp [trySends, ih hk, Nat.lt_of_succ_le h]

theorem collectLoop_eq_filter (n : Nat) (evs : List CollectEvent) :
    collectLoop n evs = (receivedOuts n evs).filter (fun o => o.err.isNone) := by
  induction n generalizing evs with
  | zero => simp [collectLoop, receivedOuts]
  | succ n ih =>
      cases evs with
      | nil => simp [collectLoop, receivedOuts]
      | cons e evs =>
          cases e with
          | recv o =>
              by_cases h : o.err = none <;>
                simp [collectLoop, receivedOuts, h, ih, List.filter_cons]
          | deadline => simp [collectLoop, receivedOuts]

theorem head?_filter_eq_find? {α : Type} (p : α → Bool) (l : List α) :
    (l.filter p).head? = l.find? p := by
  induction l with
  | nil => rfl
  | cons a l ih =>
      by_cases h : p a <;> simp [List.filter_cons, List.find?_cons, h, ih]

theorem dspioDeliveries_length (workerReceiving : Bool) (id : Nat) (dspid : Int)
    (roundTrip : Except String String)
    (decodeBody : String → Except String BidResponse) :
    (dspioDeliveries workerReceiving id dspid roundTrip decodeBody).length = 1 := by
  cases workerReceiving <;> simp [dspioDeliveries]

theorem fanOutDeliveries_length (env : AdEnv) (items : List (Nat × DSP)) :
    (fanOutDeliveries env items).length = items.length := by
  induction items with
  | nil => rfl
  | cons x xs ih =>
      simp [fanOutDeliveries] at ih ⊢
      simp [dspioDeliveries_length, ih]
      omega

theorem fanOutItems_length_le : ∀ l : List (Nat × DSP),
    (fanOutItems l).1.length ≤ l.length := by
  intro l
  induction l with
  | nil => simp [fanOutItems]
  | cons x xs ih =>
      obtain ⟨i, d⟩ := x
      cases h : buildBidURL d <;> simp [fanOutItems, h]
      exact ih

theorem fanOutItems_of_ok : ∀ l : List (Nat × DSP),
    (fanOutItems l).2 = none → (fanOutItems l).1 = l := by
  intro l
  induction l with
  | nil => intro _; rfl
  | cons x xs ih =>
      obtain ⟨i, d⟩ := x
      cases h : buildBidURL d <;> simp [fanOutItems, h]
      exact ih

theorem mapKeys_mapInsert_of_mem (m : List (Int × App)) (a : App)
    (h : a.id ∈ mapKeys m) : mapKeys (mapInsert m a) = mapKeys m := by
  rw [mapInsert, if_pos h]
  simp only [mapKeys, List.map_map]
  apply List.map_congr_left
  intro p _
  by_cases hp : p.1 = a.id <;> simp [hp, Function.comp]

theorem mapKeys_mapInsert_of_not_mem (m : List (Int × App)) (a : App)
    (h : a.id ∉ mapKeys m) : mapKeys (mapInsert m a) = mapKeys m ++ [a.id] := by
  rw [mapInsert, if_neg h]
  simp [mapKeys]

theorem length_mapInsert (m : List (Int × App)) (a : App) :
    (mapInsert m a).length =
      if a.id ∈ mapKeys m then m.length else m.length + 1 := by
  by_cases h : a.id ∈ mapKeys m
  · rw [mapInsert, if_pos h, if_pos h]
    simp
  · rw [mapInsert, if_neg h, if_neg h]
    simp

theorem mem_mapInsert (m : List (Int × App)) (a : App) (p : Int × App)
    (hp : p ∈ mapInsert m a) : p = (a.id, a) ∨ p ∈ m := by
  by_cases h : a.id ∈ mapKeys m
  · rw [mapInsert, if_pos h, List.mem_map] at hp
    obtain ⟨q, hq, hfq⟩ := hp
    by_cases hq1 : q.1 = a.id
    · rw [if_pos hq1] at hfq
      exact Or.inl hfq.symm
    · rw [if_neg hq1] at hfq
      exact Or.inr (hfq ▸ hq)
  · rw [mapInsert, if_neg h] at hp
    rcases List.mem_append.mp hp with hp | hp
    · exact Or.inr hp
    · exact Or.inl (List.mem_singleton.mp hp)

theorem nodup_mapKeys_mapInsert (m : List (Int × App)) (a : App)
    (h : (mapKeys m).Nodup) : (mapKeys (mapInsert m a)).Nodup := by
  by_cases hm : a.id ∈ mapKeys m
  · rw [mapKeys_mapInsert_of_mem m a hm]; exact h
  · rw [mapKeys_mapInsert_of_not_mem m a hm]
    simp [List.nodup_append, h, hm]

theorem nodup_mapKeys_foldl : ∀ (recs : List App) (acc : List (Int × App)),
    (mapKeys acc).Nodup → (mapKeys (recs.foldl mapInsert acc)).Nodup := by
  intro recs
  induction recs with
  | nil => intro acc h; exact h
  | cons a recs ih =>
      intro acc h
      exact ih (mapInsert acc a) (nodup_mapKeys_mapInsert acc a h)

theorem mem_foldl_mapInsert : ∀ (recs : List App) (acc : List (Int × App))
    (p : Int × App), p ∈ recs.foldl mapInsert acc →
    p ∈ acc ∨ (p.2.id = p.1 ∧ p.2 ∈ recs) := by
  intro recs
  induction recs with
  | nil => intro acc p hp; exact Or.inl hp
  | cons a recs ih =>
      intro acc p hp
      rcases ih (mapInsert acc a) p hp with hin | hrec
      · rcases mem_mapInsert acc a p hin with he | hacc
        · right
          subst he
          exact ⟨rfl, List.mem_cons_self a recs⟩
        · exact Or.inl hacc
      · right
        exact ⟨hrec.1, List.mem_cons_of_mem a hrec.2⟩

theorem length_foldl_mapInsert : ∀ (recs : List App) (acc : List (Int × App)),
    (∀ a ∈ recs, a.id ∉ mapKeys acc) →
    (recs.map (fun a => a.id)).Nodup →
    (recs.foldl mapInsert acc).length = acc.length + recs.length := by
  intro recs
  induction recs with
  | nil => intro acc _ _; simp
  | cons a recs ih =>
      intro acc hfresh hnodup
      rw [List.map_cons] at hnodup
      have hn := List.nodup_cons.mp hnodup
      have ha : a.id ∉ mapKeys acc := hfresh a (List.mem_cons_self a recs)
      have hstep : ∀ b ∈ recs, b.id ∉ mapKeys (mapInsert acc a) := by
        intro b hb
        rw [mapKeys_mapInsert_of_not_mem acc a ha]
        simp only [List.mem_append, List.mem_singleton]
        push_neg
        refine ⟨hfresh b (List.mem_cons_of_mem a hb), ?_⟩
        intro hba
        exact hn.1 (hba ▸ List.mem_map_of_mem (fun x => x.id) hb)
      have hlen := ih (mapInsert acc a) hstep hn.2
      simp only [List.foldl_cons, hlen, length_mapInsert, if_neg ha, List.length_cons]
      omega

theorem adHandler_shape (env : AdEnv) :
    ((adHandler env).chanCap = none ∧ (adHandler env).enqueued = [] ∧
      (adHandler env).deliveries = [] ∧ (adHandler env).chanClosed = false) ∨
    ((adHandler env).chanCap = some env.dsps.length ∧
      (adHandler env).enqueued = (fanOutItems env.dsps.enum).1 ∧
      (adHandler env).deliveries = fanOutDeliveries env (fanOutItems env.dsps.enum).1 ∧
      (adHandler env).chanClosed = false) := by
  unfold adHandler
  dsimp only
  repeat' split
  all_goals first
    | exact Or.inl ⟨rfl, rfl, rfl, rfl⟩
    | exact Or.inr ⟨rfl, rfl, rfl, rfl⟩

/-! ## Claim theorems -/

/-- Claim C2: every work item offered to the dispatch pool via `Enqueue`
results in exactly one `Out` delivered on its reply channel: if no worker
is receiving, a synthetic "queue is full" error is delivered immediately
and the dropped counter is incremented; otherwise the executing worker
delivers exactly one `Out` carrying an error on round-trip failure, an
error on body-decode failure, or the decoded bid response with no error on
success. -/
theorem c2_enqueue_delivers_exactly_once
    (workerReceiving : Bool) (id : Nat) (dspid : Int)
    (roundTrip : Except String String)
    (decodeBody : String → Except String BidResponse) :
    (dspioDeliveries workerReceiving id dspid roundTrip decodeBody).length = 1 ∧
    (workerReceiving = false →
      dspioDeliveries workerReceiving id dspid roundTrip decodeBody
          = [queueFullOut id dspid] ∧
      (queueFullOut id dspid).err = some "dspio: queue is full" ∧
      (dspioEnqueueCounters workerReceiving).2 = 1) ∧
    (workerReceiving = true →
      dspioDeliveries workerReceiving id dspid roundTrip decodeBody
          = [dspioExecute id dspid roundTrip decodeBody] ∧
      (dspioEnqueueCounters workerReceiving).2 = 0 ∧
      (∀ e, roundTrip = .error e →
        dspioExecute id dspid roundTrip decodeBody
          = { id := id, dspid := dspid, err := some e }) ∧
      (∀ body e, roundTrip = .ok body → decodeBody body = .error e →
        dspioExecute id dspid roundTrip decodeBody
          = { id := id, dspid := dspid, err := some e }) ∧
      (∀ body br, roundTrip = .ok body → decodeBody body = .ok br →
        dspioExecute id dspid roundTrip decodeBody
          = { id := id, dspid := dspid, bidResponse := br, err := none })) := by
  refine ⟨dspioDeliveries_length .., ?_, ?_⟩
  · intro h
    subst h
    exact ⟨rfl, rfl, rfl⟩
  · intro h
    subst h
    refine ⟨rfl, rfl, ?_, ?_, ?_⟩
    · intro e he
      simp [dspioExecute, he]
    · intro body e hb hd
      simp [dspioExecute, hb, hd]
    · intro body br hb hd
      simp [dspioExecute, hb, hd]

/-- Witness for C2 at concrete inputs: the drop case and the
transport-error case each deliver their single reply. -/
theorem c2_enqueue_delivers_exactly_once_witness :
    dspioDeliveries false 0 7 (.ok "b") decodeBid123 = [queueFullOut 0 7] ∧
    dspioDeliveries true 0 7 (.error "connection refused") decodeBid123
      = [dspioExecute 0 7 (.error "connection refused") decodeBid123] ∧
    dspioExecute 0 7 (.error "connection refused") decodeBid123
      = { id := 0, dspid := 7, err := some "connection refused" } := by
  refine ⟨?_, ?_, ?_⟩
  · exact ((c2_enqueue_delivers_exactly_once false 0 7 (.ok "b") decodeBid123).2.1 rfl).1
  · exact ((c2_enqueue_delivers_exactly_once true 0 7 (.error "connection refused")
      decodeBid123).2.2 rfl).1
  · exact ((c2_enqueue_delivers_exactly_once true 0 7 (.error "connection refused")
      decodeBid123).2.2 rfl).2.2.1 "connection refused" rfl

/-- Claim C7: if a cache loader fails with a source-open error or a JSON
decode error, the previously published state is unchanged: no store into
the holder occurs on any error path of either loader. -/
theorem c7_loader_error_preserves_state
    (srcApps : Except String (Except String (List App)))
    (srcDSPs : Except String (Except String (List DSP)))
    (st : State) (e : String) :
    ((cacheLoadApps srcApps st).2 = some e → (cacheLoadApps srcApps st).1 = st) ∧
    ((cacheLoadDSPs srcDSPs st).2 = some e → (cacheLoadDSPs srcDSPs st).1 = st) := by
  constructor
  · rcases srcApps with e2 | (e2 | recs)
    · intro _; rfl
    · intro _; rfl
    · intro h
      simp [cacheLoadApps] at h
  · rcases srcDSPs with e2 | (e2 | recs)
    · intro _; rfl
    · intro _; rfl
    · intro h
      simp [cacheLoadDSPs] at h

/-- Witness for C7: a failed open of the apps source and a failed decode of
the DSPs source both leave the empty state untouched. -/
theorem c7_loader_error_preserves_state_witness :
    (cacheLoadApps (.error "open: no such file") stEmpty).1 = stEmpty ∧
    (cacheLoadDSPs (.ok (.error "invalid character")) stEmpty).1 = stEmpty := by
  constructor
  · exact (c7_loader_error_preserves_state (.error "open: no such file") (.ok (.ok []))
      stEmpty "open: no such file").1 rfl
  · exact (c7_loader_error_preserves_state (.error "open: no such file")
      (.ok (.error "invalid character")) stEmpty "invalid character").2 rfl

/-- Counterexample to claim C8: a source array with two records sharing one
app id produces a snapshot with a single entry, so the snapshot count does
not equal the record count of the source that produced it. -/
theorem c8_snapshot_count_counterexample :
    (buildAppMap dupApps).length ≠ dupApps.length ∧
    (buildAppMap dupApps).length = 1 ∧ dupApps.length = 2 := by
  decide

/-- Claim C8 (amended): every snapshot built by `CacheLoadApps` is produced
in one pass over the source records, maps each key to a source record
carrying that id, has unique keys, and its count equals the record count of
the source whenever the source ids are distinct (duplicate ids collapse:
the last record wins, see the counterexample). -/
theorem c8_snapshot_build_amended (records : List App) :
    (mapKeys (buildAppMap records)).Nodup ∧
    (∀ p ∈ buildAppMap records, p.2.id = p.1 ∧ p.2 ∈ records) ∧
    ((records.map (fun a => a.id)).Nodup →
      (buildAppMap records).length = records.length) := by
  refine ⟨?_, ?_, ?_⟩
  · exact nodup_mapKeys_foldl records [] (by simp [mapKeys])
  · intro p hp
    rcases mem_foldl_mapInsert records [] p hp with h | h
    · simp at h
    · exact h
  · intro h
    have hlen := length_foldl_mapInsert records [] (by intro a _; simp [mapKeys]) h
    simpa using hlen

/-- Witness for C8 at a duplicate-free source of two records. -/
theorem c8_snapshot_build_amended_witness :
    (buildAppMap [appOK, { id := 9, name := "b", publisher := none }]).length = 2 ∧
    (mapKeys (buildAppMap [appOK, { id := 9, name := "b", publisher := none }])).Nodup := by
  constructor
  · exact (c8_snapshot_build_amended
      [appOK, { id := 9, name := "b", publisher := none }]).2.2 (by decide)
  · exact (c8_snapshot_build_amended
      [appOK, { id := 9, name := "b", publisher := none }]).1

/-- Counterexample to claim C9: with an empty latency directive the DSP
endpoint is used verbatim, so an endpoint that itself carries a `latency`
query parameter yields an outbound URL whose query DOES contain a
`latency` key, contradicting "no latency key in the query". -/
theorem c9_latency_query_counterexample :
    dspLatencyInEndpoint.latency = "" ∧
    buildBidURL dspLatencyInEndpoint = .ok (.verbatim dspLatencyInEndpoint.endpoint) ∧
    queryHasKey (bidURLQuery (.verbatim dspLatencyInEndpoint.endpoint)) "latency" = true :=
  ⟨rfl, rfl, by decide⟩

/-- Claim C9 (amended): with a non-empty latency directive the outbound URL
query contains the pair `latency=<directive>` (the directive replaces any
existing `latency` value); with an empty directive the endpoint is used
verbatim, so the code adds no `latency` key and the outbound query is
exactly the endpoint's own. -/
theorem c9_latency_query_amended (dsp : DSP) :
    (dsp.latency ≠ "" → ∀ u, buildBidURL dsp = .ok u →
      ("latency", dsp.latency) ∈ bidURLQuery u ∧
      queryHasKey (bidURLQuery u) "latency" = true) ∧
    (dsp.latency = "" → ∀ u, buildBidURL dsp = .ok u → u = .verbatim dsp.endpoint) := by
  constructor
  · intro hl u hu
    simp only [buildBidURL, if_neg hl] at hu
    cases hparse : goURLParse dsp.endpoint with
    | error e =>
        rw [hparse] at hu
        cases hu
    | ok gu =>
        rw [hparse] at hu
        cases hu
        constructor
        · simp [bidURLQuery, querySet]
        · simp [bidURLQuery, querySet, queryHasKey]
  · intro hl u hu
    simp only [buildBidURL, if_pos hl] at hu
    by_cases hc : containsCTL dsp.endpoint
    · rw [if_pos hc] at hu
      cases hu
    · rw [if_neg hc] at hu
      cases hu
      rfl

/-- Witness for C9: the directive of `dspWithLatency` appears in the rebuilt
query; `goodDSP` (no directive) keeps its endpoint verbatim. -/
theorem c9_latency_query_amended_witness :
    ("latency", "150ms") ∈ bidURLQuery (.rebuilt "https://d1/bid" [("latency", "150ms")]) ∧
    BidURL.verbatim "https://d1/bid" = .verbatim goodDSP.endpoint := by
  constructor
  · exact (((c9_latency_query_amended dspWithLatency).1 (by decide)
      (.rebuilt "https://d1/bid" [("latency", "150ms")])) (by rfl)).1
  · exact (c9_latency_query_amended goodDSP).2 rfl (.verbatim "https://d1/bid") (by rfl)

/-- Claim C10: a decodable bid request without an `app` object drives the
handler into the nil-pointer dereference at `adRequest.App.ID`
(a Go runtime panic), not a defined HTTP error response: the handler is
not total over decodable inputs. -/
theorem c10_nil_app_panics (env : AdEnv) (req : BidRequest)
    (hgz : env.gzipReader = .ok ())
    (hdec : env.decodeBody = .ok req)
    (happ : req.app = none) :
    (adHandler env).result = .panic := by
  simp [adHandler, hgz, hdec, happ]

/-- Witness for C10: the concrete environment with a decodable body lacking
`app` panics. -/
theorem c10_nil_app_panics_witness :
    (adHandler envNoApp).result = .panic :=
  c10_nil_app_panics envNoApp { id := "1", app := none } rfl rfl rfl

/-- Claim C6: POST `/ad` responds 500 when the gzip body fails to
decompress or the JSON body fails to decode, 500 when `request.app.id` is
not an integer, and 404 with a body containing "app not found" when the
parsed app id is absent from the snapshot; in each case the handler
returns the early structure (default fields), so nothing is enqueued and
no delivery is attempted. -/
theorem c6_pre_fanout_errors (env : AdEnv) :
    (∀ e, env.gzipReader = .error e →
      adHandler env = { result := .response 500 (.errorText (e ++ "\n")) } ∧
      (adHandler env).enqueued = [] ∧ (adHandler env).deliveries = []) ∧
    (∀ e, env.gzipReader = .ok () → env.decodeBody = .error e →
      adHandler env = { result := .response 500 (.errorText (e ++ "\n")) } ∧
      (adHandler env).enqueued = [] ∧ (adHandler env).deliveries = []) ∧
    (∀ req reqApp e, env.gzipReader = .ok () → env.decodeBody = .ok req →
      req.app = some reqApp → goAtoi reqApp.id = .error e →
      adHandler env = { result := .response 500 (.errorText (e ++ "\n")) } ∧
      (adHandler env).enqueued = [] ∧ (adHandler env).deliveries = []) ∧
    (∀ req reqApp appid, env.gzipReader = .ok () → env.decodeBody = .ok req →
      req.app = some reqApp → goAtoi reqApp.id = .ok appid →
      appsLookup env.apps.apps appid = none →
      adHandler env = { result := .response 404 (.errorText "app not found\n") } ∧
      stringContains "app not found\n" "app not found" = true ∧
      (adHandler env).enqueued = [] ∧ (adHandler env).deliveries = []) := by
  refine ⟨?_, ?_, ?_, ?_⟩
  · intro e hgz
    refine ⟨?_, ?_, ?_⟩ <;> simp [adHandler, hgz]
  · intro e hgz hdec
    refine ⟨?_, ?_, ?_⟩ <;> simp [adHandler, hgz, hdec]
  · intro req reqApp e hgz hdec happ hid
    refine ⟨?_, ?_, ?_⟩ <;> simp [adHandler, hgz, hdec, happ, hid]
  · intro req reqApp appid hgz hdec happ hid hmiss
    refine ⟨?_, ?_, ?_, ?_⟩
    · simp [adHandler, hgz, hdec, happ, hid, hmiss]
    · decide
    · simp [adHandler, hgz, hdec, happ, hid, hmiss]
    · simp [adHandler, hgz, hdec, happ, hid, hmiss]

/-- Witness for C6: each of the four error branches realized at a concrete
environment. -/
theorem c6_pre_fanout_errors_witness :
    adHandler envGzipFail
      = { result := .response 500 (.errorText "gzip: invalid header\n") } ∧
    adHandler envJSONFail
      = { result := .response 500 (.errorText "invalid character\n") } ∧
    adHandler envBadKey
      = { result := .response 500
            (.errorText "strconv.Atoi: parsing abc: invalid syntax\n") } ∧
    adHandler envMiss
      = { result := .response 404 (.errorText "app not found\n") } := by
  refine ⟨?_, ?_, ?_, ?_⟩
  · exact ((c6_pre_fanout_errors envGzipFail).1 "gzip: invalid header" rfl).1
  · exact ((c6_pre_fanout_errors envJSONFail).2.1 "invalid character" rfl rfl).1
  · exact ((c6_pre_fanout_errors envBadKey).2.2.1 { id := "1", app := some { id := "abc" } }
      { id := "abc" } "strconv.Atoi: parsing abc: invalid syntax" rfl rfl rfl (by rfl)).1
  · exact ((c6_pre_fanout_errors envMiss).2.2.2 reqOK { id := "1250" } 1250 rfl rfl rfl
      (by rfl) rfl).1

/-- Counterexample to claim C1: a request whose decode and lookup succeed
but whose roster holds a DSP with a malformed endpoint gets a 500 error
text as its body, not the bid response of the first error-free reply and
not the empty bid response record. -/
theorem c1_first_success_counterexample :
    envBuildFail.gzipReader = .ok () ∧
    envBuildFail.decodeBody = .ok reqOK ∧
    appsLookup envBuildFail.apps.apps 1250 = some appOK ∧
    (adHandler envBuildFail).result
      = .response 500 (.errorText "net/url: invalid control character in URL\n") ∧
    (adHandler envBuildFail).result ≠ .response 200 (.bidJSON emptyBidResponse) := by
  refine ⟨rfl, rfl, rfl, by decide, by decide⟩

/-- Claim C1 (amended): for every ad request whose body decode and app
lookup succeed, whose looked-up app carries a publisher record, and whose
outbound request construction succeeds for every roster entry, the JSON
response body is the bid response of the first error-free `Out` collected
before the collect loop ends (N received or deadline), and the empty bid
response record when no error-free `Out` was collected — never a partial
or mixed record. -/
theorem c1_first_success_amended (env : AdEnv) (req : BidRequest)
    (reqApp : BidReqApp) (appid : Int) (app : App) (pub : Publisher)
    (hgz : env.gzipReader = .ok ())
    (hdec : env.decodeBody = .ok req)
    (happ : req.app = some reqApp)
    (hid : goAtoi reqApp.id = .ok appid)
    (hlookup : appsLookup env.apps.apps appid = some app)
    (hpub : app.publisher = some pub)
    (hbuild : (fanOutItems env.dsps.enum).2 = none) :
    (adHandler env).result =
      .response 200 (.bidJSON
        ((((adHandler env).received.find? (fun o => o.err.isNone)).map
          (fun o => o.bidResponse)).getD emptyBidResponse)) ∧
    ((adHandler env).received.find? (fun o => o.err.isNone) = none →
      (adHandler env).result = .response 200 (.bidJSON emptyBidResponse)) := by
  have hred :
      adHandler env =
        { result := .response 200 (.bidJSON
            ((((receivedOuts env.dsps.length env.collectEvents).find?
              (fun o => o.err.isNone)).map (fun o => o.bidResponse)).getD {})),
          chanCap := some env.dsps.length,
          enqueued := (fanOutItems env.dsps.enum).1,
          deliveries := fanOutDeliveries env (fanOutItems env.dsps.enum).1,
          received := receivedOuts env.dsps.length env.collectEvents } := by
    simp only [adHandler, hgz, hdec, happ, hid, hlookup, hpub, hbuild,
      collectLoop_eq_filter, head?_filter_eq_find?]
  rw [hred]
  constructor
  · rfl
  · intro hnone
    simp only at hnone
    simp [hnone, emptyBidResponse]

/-- Witness for C1: on the happy-path environment the body is the bid of
the single error-free reply. -/
theorem c1_first_success_amended_witness :
    (adHandler envHappy).result = .response 200 (.bidJSON { id := "123" }) := by
  have h := c1_first_success_amended envHappy reqOK { id := "1250" } 1250 appOK
    { id := 1, name := "publisher-1" } rfl rfl rfl (by rfl) rfl rfl rfl
  exact h.1.trans (by decide)

/-- Counterexample to claim C3: a request that reaches fan-out (its first
roster entry is enqueued) but hits an outbound-construction failure at the
second entry attempts one delivery, not one per roster entry. -/
theorem c3_delivery_count_counterexample :
    (adHandler envBuildFail).chanCap = some 2 ∧
    (adHandler envBuildFail).enqueued.length = 1 ∧
    (adHandler envBuildFail).deliveries.length = 1 ∧
    envBuildFail.dsps.length = 2 ∧
    (adHandler envBuildFail).deliveries.length ≠ envBuildFail.dsps.length := by
  refine ⟨by decide, by decide, by decide, rfl, by decide⟩

/-- Claim C3 (amended): for each ad request that reaches fan-out, one
delivery is attempted per enqueued roster entry (executed or dropped), and
when every outbound request construction succeeds the number of delivery
attempts equals the roster size N observed at the start of fan-out; a
construction failure aborts the loop, leaving one delivery per entry
enqueued before the failure. -/
theorem c3_delivery_count_amended (env : AdEnv) (req : BidRequest)
    (reqApp : BidReqApp) (appid : Int) (app : App) (pub : Publisher)
    (hgz : env.gzipReader = .ok ())
    (hdec : env.decodeBody = .ok req)
    (happ : req.app = some reqApp)
    (hid : goAtoi reqApp.id = .ok appid)
    (hlookup : appsLookup env.apps.apps appid = some app)
    (hpub : app.publisher = some pub) :
    (adHandler env).deliveries.length = (adHandler env).enqueued.length ∧
    ((fanOutItems env.dsps.enum).2 = none →
      (adHandler env).deliveries.length = env.dsps.length) := by
  have hshape :
      (adHandler env).enqueued = (fanOutItems env.dsps.enum).1 ∧
      (adHandler env).deliveries
        = fanOutDeliveries env (fanOutItems env.dsps.enum).1 := by
    cases hb : (fanOutItems env.dsps.enum).2 with
    | none => constructor <;>
        simp only [adHandler, hgz, hdec, happ, hid, hlookup, hpub, hb]
    | some e => constructor <;>
        simp only [adHandler, hgz, hdec, happ, hid, hlookup, hpub, hb]
  constructor
  · rw [hshape.1, hshape.2, fanOutDeliveries_length]
  · intro hb
    rw [hshape.2, fanOutDeliveries_length, fanOutItems_of_ok _ hb, List.enum_length]

/-- Witness for C3: the happy-path fan-out attempts exactly one delivery
for its one-DSP roster. -/
theorem c3_delivery_count_amended_witness :
    (adHandler envHappy).deliveries.length = envHappy.dsps.length :=
  (c3_delivery_count_amended envHappy reqOK { id := "1250" } 1250 appOK
    { id := 1, name := "publisher-1" } rfl rfl rfl (by rfl) rfl rfl).2 rfl

/-- Claim C4: for every ad request the reply channel, when created, has
buffer capacity equal to the roster size N; the total sends attempted
against it never exceed N, so no send blocks even with no concurrent
receiver (`trySends` tracks a buffered channel with no receive); and the
orchestrator never closes it. -/
theorem c4_reply_channel_safety (env : AdEnv) :
    (adHandler env).chanClosed = false ∧
    (adHandler env).deliveries.length ≤ env.dsps.length ∧
    (∀ c, (adHandler env).chanCap = some c →
      c = env.dsps.length ∧
      trySends c ((adHandler env).deliveries.length)
        = some ((adHandler env).deliveries.length)) := by
  rcases adHandler_shape env with ⟨hc, _, hd, hcl⟩ | ⟨hc, _, hd, hcl⟩
  · refine ⟨hcl, ?_, ?_⟩
    · simp [hd]
    · intro c hcap
      rw [hc] at hcap
      cases hcap
  · have hlen : (adHandler env).deliveries.length ≤ env.dsps.length := by
      rw [hd, fanOutDeliveries_length]
      calc (fanOutItems env.dsps.enum).1.length
          ≤ env.dsps.enum.length := fanOutItems_length_le _
        _ = env.dsps.length := List.enum_length
    refine ⟨hcl, hlen, ?_⟩
    intro c hcap
    rw [hc] at hcap
    cases hcap
    exact ⟨rfl, trySends_of_le _ _ hlen⟩

/-- Witness for C4: on the happy path the channel has capacity 1 and the
single send fits the buffer. -/
theorem c4_reply_channel_safety_witness :
    1 = envHappy.dsps.length ∧
    trySends 1 ((adHandler envHappy).deliveries.length)
      = some ((adHandler envHappy).deliveries.length) :=
  (c4_reply_channel_safety envHappy).2.2 1 (by decide)

/-- Counterexample to claim C5: decode and lookup succeed, yet the response
status is 500, because the second roster entry's outbound URL fails to
parse. -/
theorem c5_status_200_counterexample :
    envBuildFail.gzipReader = .ok () ∧
    envBuildFail.decodeBody = .ok reqOK ∧
    appsLookup envBuildFail.apps.apps 1250 = some appOK ∧
    statusOf (adHandler envBuildFail).result = some 500 ∧
    statusOf (adHandler envBuildFail).result ≠ some 200 := by
  refine ⟨rfl, rfl, rfl, by decide, by decide⟩

/-- Claim C5 (amended): for every ad request where body decoding and app
lookup succeed, the looked-up app carries a publisher record, and every
outbound DSP request is successfully constructed, the HTTP response status
is 200. -/
theorem c5_status_200_amended (env : AdEnv) (req : BidRequest)
    (reqApp : BidReqApp) (appid : Int) (app : App) (pub : Publisher)
    (hgz : env.gzipReader = .ok ())
    (hdec : env.decodeBody = .ok req)
    (happ : req.app = some reqApp)
    (hid : goAtoi reqApp.id = .ok appid)
    (hlookup : appsLookup env.apps.apps appid = some app)
    (hpub : app.publisher = some pub)
    (hbuild : (fanOutItems env.dsps.enum).2 = none) :
    statusOf (adHandler env).result = some 200 := by
  simp [adHandler, hgz, hdec, happ, hid, hlookup, hpub, hbuild, statusOf]

/-- Witness for C5: the happy-path request gets status 200. -/
theorem c5_status_200_amended_witness :
    statusOf (adHandler envHappy).result = some 200 :=
  c5_status_200_amended envHappy reqOK { id := "1250" } 1250 appOK
    { id := 1, name := "publisher-1" } rfl rfl rfl (by rfl) rfl rfl rfl

end Exchange
